import Mathlib

/-!
Verification development for the Lincoln hall-pass application (`src/app.py`).

The Python source works over rows of a spreadsheet.  We embed a row as the
structure `Rec` below (columns `First Name, Last Name, Period, Teacher,
Reason, Time Out, Time In`, cf. `PASS_HEADERS` in the source), timestamps as
the structure `Dt` (a naive local wall-clock datetime), and each operation of
the source as a pure Lean function taking the record list and the current
time explicitly (in the source these come from `sheet.get_all_records()` /
`read_passes()` and `datetime.now(LOCAL_TZ)` / `now_str()`).
-/

/-- Python whitespace characters stripped by `str.strip()` (ASCII subset;
the rows of this application only ever contain ASCII). -/
def isPyWs (c : Char) : Bool :=
  c == ' ' || c == '\t' || c == '\n' || c == '\r' || c == '\x0b' || c == '\x0c'

/-- Model of Python `str.strip()`: drop leading and trailing whitespace. -/
def pstrip (s : String) : String :=
  String.mk (((s.data.dropWhile isPyWs).reverse.dropWhile isPyWs).reverse)

/-- Model of Python `str.lower()` (ASCII case folding). -/
def lowerStr (s : String) : String :=
  String.mk (s.data.map Char.toLower)

/-- `safe_str` from the source: coerce a cell to a trimmed string.  Cells are
already strings in this model, so this is exactly the `.strip()`. -/
def safe_str (s : String) : String := pstrip s

/-- The name key used by every matching loop of the source:
`safe_str(x).lower()`. -/
def nameKey (s : String) : String := lowerStr (pstrip s)

/-- A naive local datetime as stored in `Time Out` / `Time In` cells. -/
structure Dt where
  year : Nat
  month : Nat
  day : Nat
  hour : Nat
  minute : Nat
  second : Nat
deriving DecidableEq

/-- Gregorian leap-year test (as in Python's `calendar`/`datetime`). -/
def isLeap (y : Nat) : Bool :=
  y % 4 == 0 && (y % 100 != 0 || y % 400 == 0)

/-- Number of days in a month. -/
def daysInMonth (y m : Nat) : Nat :=
  if m = 2 then (if isLeap y then 29 else 28)
  else if m = 4 ∨ m = 6 ∨ m = 9 ∨ m = 11 then 30
  else 31

/-- Days in the months strictly before month `m` of a year. -/
def monthDaysBefore (leap : Bool) (m : Nat) : Nat :=
  (match m with
   | 1 => 0 | 2 => 31 | 3 => 59 | 4 => 90 | 5 => 120 | 6 => 151
   | 7 => 181 | 8 => 212 | 9 => 243 | 10 => 273 | 11 => 304 | _ => 334)
  + (if leap && m ≥ 3 then 1 else 0)

/-- Leap days among years `1 .. y-1`. -/
def leapsBefore (y : Nat) : Nat :=
  ((y - 1) / 4 - (y - 1) / 100) + (y - 1) / 400

/-- Days from 0001-01-01 to the start of year `y`. -/
def daysBeforeYear (y : Nat) : Nat :=
  365 * (y - 1) + leapsBefore y

/-- Seconds since 0001-01-01 00:00:00.  For valid datetimes this is a strictly
monotone encoding, so Python's `datetime` comparison and subtraction are
modelled by comparing / subtracting `toSec` values. -/
def Dt.toSec (d : Dt) : Nat :=
  (daysBeforeYear d.year + monthDaysBefore (isLeap d.year) d.month + (d.day - 1)) * 86400
    + d.hour * 3600 + d.minute * 60 + d.second

/-- Numeric value of a decimal digit character. -/
def digitVal (c : Char) : Option Nat :=
  if c.isDigit then some (c.toNat - 48) else none

/-- Parse a (fixed-width, non-empty at call sites) run of decimal digits. -/
def parseDigits (cs : List Char) : Option Nat :=
  cs.foldl (fun acc c =>
    match acc, digitVal c with
    | some a, some v => some (a * 10 + v)
    | _, _ => none) (some 0)

/-- Model of `datetime.strptime(s, "%Y-%m-%d %H:%M:%S")` followed by the
`datetime` constructor's range validation, for the canonical zero-padded
strings produced by `now_str()`.  Any string not of that shape, or with
out-of-range fields, fails to parse (Python raises `ValueError`; we return
`none`). -/
def parseDt (s : String) : Option Dt :=
  match s.data with
  | [y1, y2, y3, y4, c1, m1, m2, c2, d1, d2, c3, h1, h2, c4, n1, n2, c5, s1, s2] =>
    if c1 = '-' ∧ c2 = '-' ∧ c3 = ' ' ∧ c4 = ':' ∧ c5 = ':' then
      match parseDigits [y1, y2, y3, y4], parseDigits [m1, m2], parseDigits [d1, d2],
            parseDigits [h1, h2], parseDigits [n1, n2], parseDigits [s1, s2] with
      | some y, some mo, some da, some h, some mi, some se =>
        if 1 ≤ y ∧ 1 ≤ mo ∧ mo ≤ 12 ∧ 1 ≤ da ∧ da ≤ daysInMonth y mo ∧
           h ≤ 23 ∧ mi ≤ 59 ∧ se ≤ 59
        then some ⟨y, mo, da, h, mi, se⟩ else none
      | _, _, _, _, _, _ => none
    else none
  | _ => none

/-- `str.split("-")` on a character list (used by `_to_local_midnight`). -/
def splitDash : List Char → List (List Char)
  | [] => [[]]
  | '-' :: rest => [] :: splitDash rest
  | c :: rest =>
    match splitDash rest with
    | g :: gs => (c :: g) :: gs
    | [] => [[c]]

/-- Model of Python `int(x)` on the date components produced by the split
(non-empty all-digit strings; anything else raises in Python, `none` here). -/
def pyInt (cs : List Char) : Option Nat :=
  if cs ≠ [] ∧ cs.all Char.isDigit then parseDigits cs else none

/-- `_to_local_midnight(date_str)` from the source: split a `YYYY-MM-DD`
string on `-` and build the local midnight datetime.  The fallback arm is
unreachable for the configured `QUARTERS` strings (Python would raise). -/
def toLocalMidnight (s : String) : Dt :=
  match (splitDash s.data).map pyInt with
  | [some y, some m, some d] => ⟨y, m, d, 0, 0, 0⟩
  | _ => ⟨1, 1, 1, 0, 0, 0⟩

/-- One entry of the `QUARTERS` configuration table.  The source stores the
dict keys `name`, `start`, `end`; `end` is a Lean keyword so the exclusive
end date is called `qend` here. -/
structure Quarter where
  name : String
  start : String
  qend : String
deriving DecidableEq

/-- The `QUARTERS` table from the source (end dates are exclusive). -/
def QUARTERS : List Quarter :=
  [⟨"Q1", "2025-08-06", "2025-10-10"⟩,
   ⟨"Q2", "2025-10-13", "2025-12-20"⟩,
   ⟨"Q3", "2026-01-06", "2026-03-07"⟩,
   ⟨"Q4", "2026-03-09", "2026-05-23"⟩]

/-- `datetime.max` (to the second), used for the open-ended last quarter. -/
def dtMax : Dt := ⟨9999, 12, 31, 23, 59, 59⟩

/-- The `for q in QUARTERS` loop of `_active_quarter_dt`: first quarter whose
`[start, end)` interval contains `now`. -/
def findQ : List Quarter → Dt → Option Quarter
  | [], _ => none
  | q :: rest, now =>
    if (toLocalMidnight q.start).toSec ≤ now.toSec ∧
       now.toSec < (toLocalMidnight q.qend).toSec
    then some q else findQ rest now

/-- `_active_quarter_dt(now)` from the source: the containing quarter if any;
otherwise, at or after the last end date the last quarter is returned
open-ended, before the first start date the first quarter is returned, and
only in the remaining (interior gap) case the result is `"Unknown"`. -/
def activeQuarterDt (now : Dt) : String × Option Dt × Option Dt :=
  match findQ QUARTERS now with
  | some q => (q.name, some (toLocalMidnight q.start), some (toLocalMidnight q.qend))
  | none =>
    match QUARTERS.getLast?, QUARTERS.head? with
    | some ql, some qf =>
      if (toLocalMidnight ql.qend).toSec ≤ now.toSec then
        (ql.name, some (toLocalMidnight ql.start), some dtMax)
      else if now.toSec < (toLocalMidnight qf.start).toSec then
        (qf.name, some (toLocalMidnight qf.start), some (toLocalMidnight qf.qend))
      else ("Unknown", none, none)
    | _, _ => ("Unknown", none, none)

/-- `_within_period(ts_str, start_dt, end_dt)` from the source: strip and
parse the timestamp, interpret it in the local zone, and test membership in
`[start_dt, end_dt)`; any parse failure, or a missing bound, yields `False`. -/
def withinPeriod (ts : String) (sd ed : Option Dt) : Bool :=
  match parseDt (pstrip ts), sd, ed with
  | some t, some s, some e => s.toSec ≤ t.toSec && t.toSec < e.toSec
  | _, _, _ => false

/-- One spreadsheet row, with the columns of `PASS_HEADERS`. -/
structure Rec where
  firstName : String
  lastName : String
  period : String
  teacher : String
  reason : String
  timeOut : String
  timeIn : String
deriving DecidableEq

/-- `passes_this_quarter(first, last)` from the source, with the record list
and the current time passed explicitly: count the rows whose names match the
student (case-insensitively after trimming) and whose `Time Out` lies in the
active quarter's window; `0` when no quarter window is available. -/
def passes_this_quarter (records : List Rec) (now : Dt) (first last : String) : Nat :=
  match activeQuarterDt now with
  | (_, some sd, some ed) =>
    records.countP (fun row =>
      nameKey row.firstName == nameKey first && nameKey row.lastName == nameKey last &&
      withinPeriod (safe_str row.timeOut) (some sd) (some ed))
  | _ => 0

/-- `student_has_open_pass(first, last)` from the source: some row matches
the student and has a non-empty `Time Out` together with an empty `Time In`. -/
def student_has_open_pass (records : List Rec) (first last : String) : Bool :=
  records.any (fun row =>
    nameKey row.firstName == nameKey first && nameKey row.lastName == nameKey last &&
    safe_str row.timeOut != "" && safe_str row.timeIn == "")

/-- `recent_signout_exists(first, last, window_seconds)` from the source:
some row matches the student and carries a parseable `Time Out` at most
`window_seconds` before `now` (rows with empty or unparseable `Time Out` are
skipped). -/
def recent_signout_exists (records : List Rec) (now : Dt) (first last : String)
    (window_seconds : Nat) : Bool :=
  records.any (fun row =>
    nameKey row.firstName == nameKey first && nameKey row.lastName == nameKey last &&
    (let ts := safe_str row.timeOut
     ts != "" &&
       (match parseDt ts with
        | some t => decide ((now.toSec : Int) - (t.toSec : Int) ≤ (window_seconds : Int))
        | none => false)))

/-- `signout_checks(first_name, last_name)` from the source, with the record
list, the current time and the two environment limits passed explicitly.
Returns the list of `(code, message)` pairs for the failed checks, evaluated
in the fixed order: no-quarter, capacity, quarterly limit. -/
def signout_checks (records : List Rec) (now : Dt) (HALL_LIMIT MAX_QUARTER_PASSES : Nat)
    (first_name last_name : String) : List (String × String) :=
  let first := safe_str first_name
  let last := safe_str last_name
  let q := activeQuarterDt now
  let issues1 :=
    if q.1 = "Unknown" ∨ q.2.1 = none ∨ q.2.2 = none then
      [("no_quarter",
        "No active quarter (e.g., break day). Passes resume next school day.")]
    else []
  let currently_out := records.filter (fun p => safe_str p.timeIn == "")
  let issues2 :=
    if currently_out.length ≥ HALL_LIMIT then
      issues1 ++
        [("capacity",
          "The maximum number of students are already out. Please wait until someone returns.")]
    else issues1
  if q.1 ≠ "Unknown" ∧ passes_this_quarter records now first last ≥ MAX_QUARTER_PASSES then
    issues2 ++
      [("limit_reached",
        s!"You have used all {MAX_QUARTER_PASSES} passes for this quarter ({q.1}).")]
  else issues2

/-- The emptiness test of the `signin` route on a `Time In` cell: trimmed
value empty, or equal to `none` / `nan` case-insensitively. -/
def signin_time_in_empty (v : String) : Bool :=
  let t := pstrip v
  t == "" || lowerStr t == "none" || lowerStr t == "nan"

/-- The row condition of the `signin` loop: names match the target student
(trimmed, case-insensitive) and the `Time In` cell counts as empty. -/
def signinMatches (first last : String) (row : Rec) : Bool :=
  nameKey row.firstName == nameKey first && nameKey row.lastName == nameKey last &&
    signin_time_in_empty row.timeIn

/-- The `for idx, row in enumerate(records, start=2)` loop of the `signin`
route, with 0-based indices: walk the rows in sheet order, and at the first
row satisfying `signinMatches` write `nowS` into its `Time In` cell
(`sheet.update_cell`), returning the index and the updated rows. -/
def signinAux (nowS first last : String) : List Rec → Nat → Option (Nat × List Rec)
  | [], _ => none
  | row :: rest, i =>
    if signinMatches first last row then
      some (i, { row with timeIn := nowS } :: rest)
    else
      match signinAux nowS first last rest (i + 1) with
      | some (j, rest') => some (j, row :: rest')
      | none => none

/-- The `signin` route from the source (after the full-name split), with the
record list and `now_str()` passed explicitly: `some (idx, records')` when a
row was signed back in, `none` for the 404 "Student not found or already
signed in" response. -/
def signin (records : List Rec) (nowS first last : String) : Option (Nat × List Rec) :=
  signinAux nowS first last records 0

/-- `write_pass(entry)` from the source: `sheet.append_row` adds the entry
after the existing rows. -/
def write_pass (records : List Rec) (entry : Rec) : List Rec :=
  records ++ [entry]

/-- The `entry` dict built by the sign-out path (source lines 508–516; in
the source this block is dedented to module level — see the C2 analysis):
the submitted fields, `Time Out = now_str()`, `Time In = ""`.  The PIN is
not stored. -/
def signoutEntry (first_name last_name period teacher final_reason time_out : String) : Rec :=
  { firstName := first_name, lastName := last_name, period := period,
    teacher := teacher, reason := final_reason, timeOut := time_out, timeIn := "" }

/-- The per-row close condition of `auto_close_stale_passes`: `Time Out`
non-empty, `Time In` empty (after stripping), the timestamp parses, and it
is more than `max_minutes` minutes before `now`. -/
def staleOpen (now : Dt) (max_minutes : Nat) (row : Rec) : Bool :=
  pstrip row.timeOut != "" && pstrip row.timeIn == "" &&
    (match parseDt (pstrip row.timeOut) with
     | some t => decide ((now.toSec : Int) - (t.toSec : Int) > (max_minutes : Int) * 60)
     | none => false)

/-- The row loop of `auto_close_stale_passes`: rows with a `Time Out` and an
empty `Time In` whose timestamp parses and is more than `max_minutes` old
get `Time In := now_str()` (`sheet.update_cell`) and are counted; rows with
unparseable timestamps are skipped (the inner `except ValueError: continue`),
as are closed or blank rows. -/
def autoCloseGo (max_minutes : Nat) (now : Dt) (nowS : String) : List Rec → List Rec × Nat
  | [] => ([], 0)
  | row :: rest =>
    let res := autoCloseGo max_minutes now nowS rest
    if pstrip row.timeOut ≠ "" ∧ pstrip row.timeIn = "" then
      match parseDt (pstrip row.timeOut) with
      | none => (row :: res.1, res.2)
      | some out_dt =>
        if (now.toSec : Int) - (out_dt.toSec : Int) > (max_minutes : Int) * 60 then
          ({ row with timeIn := nowS } :: res.1, res.2 + 1)
        else (row :: res.1, res.2)
    else (row :: res.1, res.2)

/-- `auto_close_stale_passes(max_minutes)` from the source, over the data
rows (the header row, used only to locate the `Time Out` / `Time In`
columns, is implicit in the `Rec` fields), with the current time and
`now_str()` passed explicitly.  Returns the updated rows and the number of
rows auto-closed. -/
def auto_close_stale_passes (max_minutes : Nat) (now : Dt) (nowS : String)
    (rows : List Rec) : List Rec × Nat :=
  autoCloseGo max_minutes now nowS rows
/-- A current instant inside quarter Q2, used by concrete instantiations. -/
def nowQ2 : Dt := ⟨2025, 10, 14, 10, 0, 0⟩

/-- An older open pass for Ann Lee (row index 0, created first). -/
def c1RowOld : Rec :=
  ⟨"Ann", "Lee", "Period 2", "R. Heeren", "Water", "2025-10-14 09:00:00", ""⟩

/-- A newer open pass for Ann Lee (row index 1, created last). -/
def c1RowNew : Rec :=
  ⟨"Ann", "Lee", "Period 2", "R. Heeren", "Water", "2025-10-14 10:00:00", ""⟩

/-- A row for Bo Ray with an empty `Time Out` (no open pass in the sense of
the specification) and an empty `Time In`. -/
def c1RowBlank : Rec :=
  ⟨"Bo", "Ray", "Period 2", "R. Heeren", "Water", "", ""⟩

/-- A row whose `Time In` cell holds the literal string `"None"`: non-empty
for the sign-out checks, but "empty" for the sign-in route. -/
def c10Row : Rec :=
  ⟨"Ann", "Lee", "Period 2", "R. Heeren", "Water", "2025-10-14 09:00:00", "None"⟩

/-- A single open record (for the capacity witness with `HALL_LIMIT = 1`). -/
def c4Recs : List Rec :=
  [⟨"Cal", "Fox", "Period 3", "J. Bird", "Office", "2025-10-14 09:30:00", ""⟩]

/-- Records for the quarter-window witness: Ann Lee once inside Q2, once in
Q1, once with an unparseable timestamp; Bob Day inside Q2. -/
def c6Recs : List Rec :=
  [⟨"Ann", "Lee", "Period 2", "R. Heeren", "Water", "2025-10-14 09:00:00", "2025-10-14 09:10:00"⟩,
   ⟨"Ann", "Lee", "Period 2", "R. Heeren", "Water", "2025-09-01 09:00:00", "2025-09-01 09:10:00"⟩,
   ⟨"Ann", "Lee", "Period 2", "R. Heeren", "Water", "bogus", ""⟩,
   ⟨"Bob", "Day", "Period 4", "J. Bird", "Nurse", "2025-10-13 12:00:00", ""⟩]

/-- Rows for the reclaimer witnesses: one stale open row, one fresh open
row, one closed row, one open row with a malformed timestamp. -/
def c8Rows : List Rec :=
  [⟨"Ann", "Lee", "Period 2", "R. Heeren", "Water", "2025-10-14 09:00:00", ""⟩,
   ⟨"Bob", "Day", "Period 4", "J. Bird", "Nurse", "2025-10-14 09:50:00", ""⟩,
   ⟨"Cal", "Fox", "Period 3", "J. Bird", "Office", "2025-10-14 08:00:00", "2025-10-14 08:10:00"⟩,
   ⟨"Dee", "Kim", "Period 5", "L. Day", "Locker", "bogus", ""⟩]

/-! Helper lemmas (shared by the claim theorems below). -/

theorem pstrip_eq_rdrop (s : String) :
    pstrip s = String.mk ((s.data.dropWhile isPyWs).rdropWhile isPyWs) := rfl

theorem head?_dropWhile_false (p : Char → Bool) (l : List Char) (x : Char)
    (h : (l.dropWhile p).head? = some x) : p x = false := by
  induction l with
  | nil => simp [List.dropWhile] at h
  | cons c cs ih =>
    cases hpc : p c
    · rw [List.dropWhile_cons, if_neg (by simp [hpc])] at h
      simp only [List.head?_cons, Option.some.injEq] at h
      exact h ▸ hpc
    · rw [List.dropWhile_cons, if_pos (by simp [hpc])] at h
      exact ih h

theorem dropWhile_rdropWhile_dropWhile (p : Char → Bool) (l : List Char) :
    ((l.dropWhile p).rdropWhile p).dropWhile p = (l.dropWhile p).rdropWhile p := by
  rcases hY : (l.dropWhile p).rdropWhile p with _ | ⟨c, cs⟩
  · rfl
  · have hpre : (c :: cs) <+: l.dropWhile p :=
      hY ▸ List.rdropWhile_prefix p (l.dropWhile p)
    obtain ⟨t, ht⟩ := hpre
    have hc : p c = false :=
      head?_dropWhile_false p l c (by rw [← ht]; rfl)
    rw [List.dropWhile_cons, if_neg (by simp [hc])]

theorem pstrip_idem (s : String) : pstrip (pstrip s) = pstrip s := by
  rw [pstrip_eq_rdrop s, pstrip_eq_rdrop]
  show String.mk ((((s.data.dropWhile isPyWs).rdropWhile isPyWs).dropWhile
      isPyWs).rdropWhile isPyWs) = _
  rw [dropWhile_rdropWhile_dropWhile, List.rdropWhile_idempotent]

theorem findQ_mem (l : List Quarter) (now : Dt) (q : Quarter)
    (h : findQ l now = some q) : q ∈ l := by
  induction l with
  | nil => simp [findQ] at h
  | cons a rest ih =>
    simp only [findQ] at h
    split at h
    · cases h; exact List.mem_cons_self _ _
    · exact List.mem_cons_of_mem _ (ih h)

theorem activeQuarterDt_shape (now : Dt) :
    (∃ nm a b, activeQuarterDt now = (nm, some a, some b) ∧ nm ≠ "Unknown")
      ∨ activeQuarterDt now = ("Unknown", none, none) := by
  cases hf : findQ QUARTERS now with
  | some q =>
    have hq := findQ_mem QUARTERS now q hf
    have hnm : q.name ≠ "Unknown" := by fin_cases hq <;> decide
    exact Or.inl ⟨q.name, toLocalMidnight q.start, toLocalMidnight q.qend,
      by simp [activeQuarterDt, hf], hnm⟩
  | none =>
    have hL : QUARTERS.getLast? = some ⟨"Q4", "2026-03-09", "2026-05-23"⟩ := by decide
    have hH : QUARTERS.head? = some ⟨"Q1", "2025-08-06", "2025-10-10"⟩ := by decide
    simp only [activeQuarterDt, hf, hL, hH]
    split_ifs with h1 h2
    · exact Or.inl ⟨"Q4", _, _, rfl, by decide⟩
    · exact Or.inl ⟨"Q1", _, _, rfl, by decide⟩
    · exact Or.inr rfl

theorem signout_checks_eq (records : List Rec) (now : Dt)
    (HALL_LIMIT MAX_QUARTER_PASSES : Nat) (first_name last_name : String) :
    signout_checks records now HALL_LIMIT MAX_QUARTER_PASSES first_name last_name =
      (if (activeQuarterDt now).1 = "Unknown" then
         [("no_quarter",
           "No active quarter (e.g., break day). Passes resume next school day.")]
       else []) ++
      (if (records.filter (fun p => safe_str p.timeIn == "")).length ≥ HALL_LIMIT then
         [("capacity",
           "The maximum number of students are already out. Please wait until someone returns.")]
       else []) ++
      (if (activeQuarterDt now).1 ≠ "Unknown" ∧
          passes_this_quarter records now (safe_str first_name) (safe_str last_name)
            ≥ MAX_QUARTER_PASSES then
         [("limit_reached",
           s!"You have used all {MAX_QUARTER_PASSES} passes for this quarter ({(activeQuarterDt now).1}).")]
       else []) := by
  rcases activeQuarterDt_shape now with ⟨nm, a, b, heq, hnm⟩ | heq <;>
    simp only [signout_checks, heq] <;> split_ifs <;> simp_all

theorem signout_checks_codes_eq (records : List Rec) (now : Dt)
    (HALL_LIMIT MAX_QUARTER_PASSES : Nat) (first_name last_name : String) :
    (signout_checks records now HALL_LIMIT MAX_QUARTER_PASSES
        first_name last_name).map Prod.fst =
      (if (activeQuarterDt now).1 = "Unknown" then ["no_quarter"] else []) ++
      (if (records.filter (fun p => safe_str p.timeIn == "")).length ≥ HALL_LIMIT then
         ["capacity"] else []) ++
      (if (activeQuarterDt now).1 ≠ "Unknown" ∧
          passes_this_quarter records now (safe_str first_name) (safe_str last_name)
            ≥ MAX_QUARTER_PASSES then ["limit_reached"] else []) := by
  rw [signout_checks_eq]
  split_ifs <;> simp

theorem autoCloseGo_spec (max_minutes : Nat) (now : Dt) (nowS : String) (rows : List Rec) :
    autoCloseGo max_minutes now nowS rows =
      (rows.map (fun row =>
         if staleOpen now max_minutes row then { row with timeIn := nowS } else row),
       rows.countP (staleOpen now max_minutes)) := by
  induction rows with
  | nil => rfl
  | cons row rest ih =>
    simp only [autoCloseGo, ih, List.map_cons, List.countP_cons]
    by_cases h1 : pstrip row.timeOut ≠ "" ∧ pstrip row.timeIn = ""
    · cases hp : parseDt (pstrip row.timeOut) with
      | none =>
        have hs : staleOpen now max_minutes row = false := by
          simp [staleOpen, hp]
        simp [h1, hp, hs]
      | some t =>
        by_cases h2 : (now.toSec : Int) - (t.toSec : Int) > (max_minutes : Int) * 60
        · have hs : staleOpen now max_minutes row = true := by
            simp [staleOpen, hp, h1.1, h1.2, h2]
          simp [h1, hp, h2, hs]
        · have hs : staleOpen now max_minutes row = false := by
            simp [staleOpen, hp, h2]
          simp [h1, hp, h2, hs]
    · have hs : staleOpen now max_minutes row = false := by
        rcases not_and_or.mp h1 with h | h
        · simp [staleOpen, not_not.mp h]
        · simp [staleOpen, h]
      simp [h1, hs]

theorem signinAux_shift (nowS first last : String) (rows : List Rec) (i : Nat) :
    signinAux nowS first last rows (i + 1) =
      (signinAux nowS first last rows i).map (fun p => (p.1 + 1, p.2)) := by
  induction rows generalizing i with
  | nil => rfl
  | cons row rest ih =>
    simp only [signinAux]
    by_cases h : signinMatches first last row = true
    · simp [h]
    · simp only [if_neg h, ih]
      cases signinAux nowS first last rest i <;> simp

theorem signin_cons (row : Rec) (rest : List Rec) (nowS first last : String) :
    signin (row :: rest) nowS first last =
      if signinMatches first last row then some (0, { row with timeIn := nowS } :: rest)
      else (signin rest nowS first last).map (fun p => (p.1 + 1, row :: p.2)) := by
  simp only [signin, signinAux]
  by_cases h : signinMatches first last row = true
  · simp [h]
  · rw [if_neg h, if_neg h, show (0 : Nat) + 1 = 1 from rfl, signinAux_shift]
    cases signinAux nowS first last rest 0 <;> simp

/-! Claim theorems. -/

/-- C1 (amended): `signIn` sets `Time In` (to the current time string) on the
*first* row in insertion order whose trimmed, case-insensitive first and last
names match the student and whose `Time In` cell is blank in the sign-in
sense (empty, `"none"` or `"nan"` after trimming, case-insensitively —
`Time Out` is not consulted), leaving every earlier row unchanged in place
and never touching a later matching row; it reports NotFound (404) exactly
when no such row exists. -/
theorem signin_closes_first_matching_row (records : List Rec) (nowS first last : String) :
    (signin records nowS first last = none ↔
       ∀ row ∈ records, signinMatches first last row = false)
    ∧ (∀ i recs', signin records nowS first last = some (i, recs') →
        ∃ row, records.get? i = some row ∧ signinMatches first last row = true ∧
          (∀ j, j < i → ∀ rj, records.get? j = some rj →
             signinMatches first last rj = false) ∧
          recs' = records.set i { row with timeIn := nowS }) := by
  induction records with
  | nil =>
    refine ⟨by simp [signin, signinAux], ?_⟩
    intro i recs' h
    simp [signin, signinAux] at h
  | cons row rest ih =>
    rw [signin_cons]
    by_cases h : signinMatches first last row = true
    · rw [if_pos h]
      refine ⟨⟨fun hn => (by cases hn), fun hall => ?_⟩, ?_⟩
      · exact absurd (hall row (List.mem_cons_self _ _)) (by simp [h])
      · intro i recs' he
        rw [Option.some.injEq, Prod.mk.injEq] at he
        obtain ⟨hi, hr⟩ := he
        subst hi
        refine ⟨row, rfl, h, fun j hj => by omega, ?_⟩
        simpa using hr.symm
    · rw [if_neg h]
      have hfalse : signinMatches first last row = false := by
        cases hb : signinMatches first last row
        · rfl
        · exact absurd hb h
      refine ⟨?_, ?_⟩
      · rw [Option.map_eq_none']
        rw [ih.1]
        constructor
        · intro hrest r hr
          rcases List.mem_cons.mp hr with rfl | hr
          · exact hfalse
          · exact hrest r hr
        · intro hall r hr
          exact hall r (List.mem_cons_of_mem _ hr)
      · intro i recs' he
        rw [Option.map_eq_some'] at he
        obtain ⟨⟨j, rs⟩, hj, heq⟩ := he
        rw [Prod.mk.injEq] at heq
        obtain ⟨hi, hr⟩ := heq
        subst hi
        obtain ⟨row', hget, hm, hbefore, hset⟩ := ih.2 j rs hj
        refine ⟨row', by simpa using hget, hm, ?_, ?_⟩
        · intro k hk rk hgk
          cases k with
          | zero =>
            simp only [List.get?_cons_zero, Option.some.injEq] at hgk
            exact hgk ▸ hfalse
          | succ k' =>
            simp only [List.get?_cons_succ] at hgk
            exact hbefore k' (by omega) rk hgk
        · rw [← hr, hset, List.set_cons_succ]

/-- C1 counterexample: with two open passes for Ann Lee (the row at index 0
created first, the row at index 1 created last) `signin` writes `Time In`
into row 0 — the *oldest* matching open record — and leaves the most
recently created matching open record (row 1) untouched; and for a student
whose only matching row has an empty `Time Out` (no open record in the
claim's sense) `signin` still succeeds instead of reporting NotFound. -/
theorem signin_picks_oldest_counterexample :
    signin [c1RowOld, c1RowNew] "2025-10-14 10:30:00" "Ann" "Lee"
        = some (0, [{ c1RowOld with timeIn := "2025-10-14 10:30:00" }, c1RowNew])
      ∧ signinMatches "Ann" "Lee" c1RowNew = true
      ∧ safe_str c1RowNew.timeOut ≠ "" ∧ safe_str c1RowNew.timeIn = ""
      ∧ safe_str c1RowOld.timeOut ≠ "" ∧ safe_str c1RowOld.timeIn = ""
      ∧ signin [c1RowBlank] "2025-10-14 10:30:00" "Bo" "Ray"
          = some (0, [{ c1RowBlank with timeIn := "2025-10-14 10:30:00" }])
      ∧ safe_str c1RowBlank.timeOut = "" := by
  decide

/-- C1 witness: the amended theorem applied to the two-open-pass example. -/
theorem signin_closes_first_matching_row_witness :
    ∃ row, [c1RowOld, c1RowNew].get? 0 = some row ∧
      signinMatches "Ann" "Lee" row = true ∧
      (∀ j, j < 0 → ∀ rj, [c1RowOld, c1RowNew].get? j = some rj →
         signinMatches "Ann" "Lee" rj = false) ∧
      [{ c1RowOld with timeIn := "2025-10-14 10:30:00" }, c1RowNew] =
        [c1RowOld, c1RowNew].set 0 { row with timeIn := "2025-10-14 10:30:00" } :=
  (signin_closes_first_matching_row [c1RowOld, c1RowNew] "2025-10-14 10:30:00"
    "Ann" "Lee").2 0 [{ c1RowOld with timeIn := "2025-10-14 10:30:00" }, c1RowNew]
    (by decide)

/-- C2 (intended write path; the source's entry-building and `write_pass`
block, lines 507–533, is dedented out of the `signout` function — see the
code-bug record): appending the sign-out entry adds exactly one record, the
existing records are unchanged, and the new last record carries the
submitted fields with `Time Out = now_str()` and `Time In = ""`. -/
theorem signout_write_appends_one_open_record (records : List Rec)
    (first_name last_name period teacher final_reason time_out : String) :
    (write_pass records
        (signoutEntry first_name last_name period teacher final_reason time_out)).length
        = records.length + 1
    ∧ (write_pass records
        (signoutEntry first_name last_name period teacher final_reason time_out)).take
          records.length = records
    ∧ (write_pass records
        (signoutEntry first_name last_name period teacher final_reason time_out)).getLast?
        = some { firstName := first_name, lastName := last_name, period := period,
                 teacher := teacher, reason := final_reason,
                 timeOut := time_out, timeIn := "" }
    ∧ (signoutEntry first_name last_name period teacher final_reason time_out).timeIn
        = "" := by
  refine ⟨by simp [write_pass], ?_, ?_, rfl⟩
  · simp [write_pass, List.take_left]
  · simp [write_pass, signoutEntry]

/-- C3 (intended check pipeline; in the source the call
`signout_checks(first_name, last_name, block_on_no_quarter=False)` raises
`TypeError` — see the code-bug record): the codes produced by
`signout_checks` are exactly the failed checks in the fixed order
no-quarter, capacity, quarterly-limit, each with its own distinct code, and
the first element — the code `signout` reports — is determined by the first
failing check. -/
theorem signout_checks_codes_in_order (records : List Rec) (now : Dt)
    (HALL_LIMIT MAX_QUARTER_PASSES : Nat) (first_name last_name : String) :
    (signout_checks records now HALL_LIMIT MAX_QUARTER_PASSES
        first_name last_name).map Prod.fst =
      (if (activeQuarterDt now).1 = "Unknown" then ["no_quarter"] else []) ++
      (if (records.filter (fun p => safe_str p.timeIn == "")).length ≥ HALL_LIMIT then
         ["capacity"] else []) ++
      (if (activeQuarterDt now).1 ≠ "Unknown" ∧
          passes_this_quarter records now (safe_str first_name) (safe_str last_name)
            ≥ MAX_QUARTER_PASSES then ["limit_reached"] else []) :=
  signout_checks_codes_eq records now HALL_LIMIT MAX_QUARTER_PASSES first_name last_name

/-- C4: whenever the number of records with an empty (trimmed) `Time In` is
at least `HALL_LIMIT`, the capacity check fails for every student, and —
whenever a quarter is active — `capacity` is the first (reported) code. -/
theorem capacity_rejects_regardless_of_student (records : List Rec) (now : Dt)
    (HALL_LIMIT MAX_QUARTER_PASSES : Nat) (first_name last_name : String)
    (h : (records.filter (fun p => safe_str p.timeIn == "")).length ≥ HALL_LIMIT) :
    "capacity" ∈ (signout_checks records now HALL_LIMIT MAX_QUARTER_PASSES
        first_name last_name).map Prod.fst
    ∧ ((activeQuarterDt now).1 ≠ "Unknown" →
        ((signout_checks records now HALL_LIMIT MAX_QUARTER_PASSES
            first_name last_name).map Prod.fst).head? = some "capacity") := by
  rw [signout_checks_codes_eq]
  constructor
  · split_ifs <;> simp
  · intro hq
    rw [if_neg hq, if_pos h]
    simp

/-- C4 witness: with `HALL_LIMIT = 1`, one open record, and a Q2 instant,
the reported (first) code for an unrelated student is `capacity`. -/
theorem capacity_rejects_regardless_of_student_witness :
    ((signout_checks c4Recs nowQ2 1 18 "Bob" "Day").map Prod.fst).head?
      = some "capacity" :=
  (capacity_rejects_regardless_of_student c4Recs nowQ2 1 18 "Bob" "Day"
    (by decide)).2 (by decide)

/-- C5: under an active quarter, the quarterly-limit check fails exactly
when the student's pass count for the quarter has reached
`MAX_QUARTER_PASSES` (so a student at the limit is rejected with
`limit_reached` while a student one below it passes the check), and when
additionally the capacity check passes and the count is below the limit,
`signout_checks` raises no issue at all. -/
theorem quarter_limit_boundary (records : List Rec) (now : Dt)
    (HALL_LIMIT MAX_QUARTER_PASSES : Nat) (first_name last_name : String)
    (hq : (activeQuarterDt now).1 ≠ "Unknown") :
    ("limit_reached" ∈ (signout_checks records now HALL_LIMIT MAX_QUARTER_PASSES
          first_name last_name).map Prod.fst ↔
        passes_this_quarter records now (safe_str first_name) (safe_str last_name)
          ≥ MAX_QUARTER_PASSES)
    ∧ ((records.filter (fun p => safe_str p.timeIn == "")).length < HALL_LIMIT →
        passes_this_quarter records now (safe_str first_name) (safe_str last_name)
          < MAX_QUARTER_PASSES →
        signout_checks records now HALL_LIMIT MAX_QUARTER_PASSES
          first_name last_name = []) := by
  constructor
  · rw [signout_checks_codes_eq, if_neg hq]
    split_ifs with h1 h2 h2
    · simp [h2.2]
    · have hnot : ¬ passes_this_quarter records now (safe_str first_name)
          (safe_str last_name) ≥ MAX_QUARTER_PASSES := fun hgl => h2 ⟨hq, hgl⟩
      simp [hnot]
    · simp [h2.2]
    · have hnot : ¬ passes_this_quarter records now (safe_str first_name)
          (safe_str last_name) ≥ MAX_QUARTER_PASSES := fun hgl => h2 ⟨hq, hgl⟩
      simp [hnot]
  · intro hcap hlim
    rw [signout_checks_eq, if_neg hq, if_neg (by omega),
      if_neg (fun hc => absurd hc.2 (by omega))]
    rfl

/-- C5 witness: at a Q2 instant with no records, no open passes and a count
of `0 < 18`, `signout_checks` is empty (the 18th pass would be accepted). -/
theorem quarter_limit_boundary_witness :
    signout_checks [] nowQ2 10 18 "Ann" "Lee" = [] :=
  (quarter_limit_boundary [] nowQ2 10 18 "Ann" "Lee" (by decide)).2
    (by decide) (by decide)

/-- C6: under an active quarter with window `[sd, ed)`,
`passes_this_quarter` equals the number of records whose trimmed,
case-insensitive names match the student and whose `Time Out` parses to an
instant in the half-open window (end exclusive); records whose `Time Out`
does not parse, or parses outside the window, are never counted. -/
theorem passes_quarter_counts_window (records : List Rec) (now : Dt)
    (first last : String) (q : String) (sd ed : Dt)
    (h : activeQuarterDt now = (q, some sd, some ed)) :
    passes_this_quarter records now first last =
      (records.filter (fun row =>
        nameKey row.firstName == nameKey first &&
        nameKey row.lastName == nameKey last &&
        (match parseDt (pstrip row.timeOut) with
         | some t => decide (sd.toSec ≤ t.toSec ∧ t.toSec < ed.toSec)
         | none => false))).length := by
  simp only [passes_this_quarter, h, List.countP_eq_length_filter]
  congr 1
  apply List.filter_congr
  intro row _
  cases hp : parseDt (pstrip row.timeOut) with
  | none => simp [withinPeriod, safe_str, pstrip_idem, hp]
  | some t => simp [withinPeriod, safe_str, pstrip_idem, hp, Bool.decide_and]

/-- C6 witness: the characterization applied to `c6Recs` at a Q2 instant
(one matching record inside the window, one in Q1, one unparseable). -/
theorem passes_quarter_counts_window_witness :
    passes_this_quarter c6Recs nowQ2 "Ann" "Lee" =
      (c6Recs.filter (fun row =>
        nameKey row.firstName == nameKey "Ann" &&
        nameKey row.lastName == nameKey "Lee" &&
        (match parseDt (pstrip row.timeOut) with
         | some t => decide ((Dt.mk 2025 10 13 0 0 0).toSec ≤ t.toSec ∧
             t.toSec < (Dt.mk 2025 12 20 0 0 0).toSec)
         | none => false))).length :=
  passes_quarter_counts_window c6Recs nowQ2 "Ann" "Lee" "Q2"
    ⟨2025, 10, 13, 0, 0, 0⟩ ⟨2025, 12, 20, 0, 0, 0⟩ (by decide)

/-- C7: the reclaimer closes exactly the open rows (`Time Out` non-empty,
`Time In` empty after trimming) whose parseable `Time Out` is more than
`max_minutes` before the current time — writing `now_str()` into their
`Time In` — returns their number, and leaves every other row (newer open
rows, closed rows, and rows with malformed timestamps, which are skipped,
not fatal) unchanged in place. -/
theorem reclaim_stale_closes_exactly_stale_open (max_minutes : Nat) (now : Dt)
    (nowS : String) (rows : List Rec) :
    auto_close_stale_passes max_minutes now nowS rows =
      (rows.map (fun row =>
         if staleOpen now max_minutes row then { row with timeIn := nowS } else row),
       rows.countP (staleOpen now max_minutes)) :=
  autoCloseGo_spec max_minutes now nowS rows

/-- C8: running the reclaimer a second time on its own output, with the
current time (and its string form, which is never the empty string for real
clock values) held fixed, closes zero rows. -/
theorem reclaim_stale_idempotent (max_minutes : Nat) (now : Dt) (nowS : String)
    (rows : List Rec) (h : pstrip nowS ≠ "") :
    (auto_close_stale_passes max_minutes now nowS
        (auto_close_stale_passes max_minutes now nowS rows).1).2 = 0 := by
  simp only [auto_close_stale_passes, autoCloseGo_spec]
  rw [List.countP_eq_zero]
  intro a ha
  rw [List.mem_map] at ha
  obtain ⟨row, hrow, rfl⟩ := ha
  by_cases hs : staleOpen now max_minutes row = true
  · rw [if_pos hs]
    simp [staleOpen, h]
  · rw [if_neg hs]
    simpa using hs

/-- C8 witness: idempotence on `c8Rows` (whose first run closes one row). -/
theorem reclaim_stale_idempotent_witness :
    (auto_close_stale_passes 30 nowQ2 "2025-10-14 10:00:00"
        (auto_close_stale_passes 30 nowQ2 "2025-10-14 10:00:00" c8Rows).1).2 = 0 :=
  reclaim_stale_idempotent 30 nowQ2 "2025-10-14 10:00:00" c8Rows (by decide)

theorem findQ_QUARTERS (now : Dt) :
    findQ QUARTERS now =
      if 63890035200 ≤ now.toSec ∧ now.toSec < 63895651200 then
        some ⟨"Q1", "2025-08-06", "2025-10-10"⟩
      else if 63895910400 ≤ now.toSec ∧ now.toSec < 63901785600 then
        some ⟨"Q2", "2025-10-13", "2025-12-20"⟩
      else if 63903254400 ≤ now.toSec ∧ now.toSec < 63908438400 then
        some ⟨"Q3", "2026-01-06", "2026-03-07"⟩
      else if 63908611200 ≤ now.toSec ∧ now.toSec < 63915091200 then
        some ⟨"Q4", "2026-03-09", "2026-05-23"⟩
      else none := by
  have e1s : (toLocalMidnight "2025-08-06").toSec = 63890035200 := by decide
  have e1e : (toLocalMidnight "2025-10-10").toSec = 63895651200 := by decide
  have e2s : (toLocalMidnight "2025-10-13").toSec = 63895910400 := by decide
  have e2e : (toLocalMidnight "2025-12-20").toSec = 63901785600 := by decide
  have e3s : (toLocalMidnight "2026-01-06").toSec = 63903254400 := by decide
  have e3e : (toLocalMidnight "2026-03-07").toSec = 63908438400 := by decide
  have e4s : (toLocalMidnight "2026-03-09").toSec = 63908611200 := by decide
  have e4e : (toLocalMidnight "2026-05-23").toSec = 63915091200 := by decide
  simp only [QUARTERS, findQ, e1s, e1e, e2s, e2e, e3s, e3e, e4s, e4e]

theorem activeQuarterDt_eq (now : Dt) :
    activeQuarterDt now =
      if 63890035200 ≤ now.toSec ∧ now.toSec < 63895651200 then
        ("Q1", some ⟨2025, 8, 6, 0, 0, 0⟩, some ⟨2025, 10, 10, 0, 0, 0⟩)
      else if 63895910400 ≤ now.toSec ∧ now.toSec < 63901785600 then
        ("Q2", some ⟨2025, 10, 13, 0, 0, 0⟩, some ⟨2025, 12, 20, 0, 0, 0⟩)
      else if 63903254400 ≤ now.toSec ∧ now.toSec < 63908438400 then
        ("Q3", some ⟨2026, 1, 6, 0, 0, 0⟩, some ⟨2026, 3, 7, 0, 0, 0⟩)
      else if 63908611200 ≤ now.toSec ∧ now.toSec < 63915091200 then
        ("Q4", some ⟨2026, 3, 9, 0, 0, 0⟩, some ⟨2026, 5, 23, 0, 0, 0⟩)
      else if 63915091200 ≤ now.toSec then
        ("Q4", some ⟨2026, 3, 9, 0, 0, 0⟩, some dtMax)
      else if now.toSec < 63890035200 then
        ("Q1", some ⟨2025, 8, 6, 0, 0, 0⟩, some ⟨2025, 10, 10, 0, 0, 0⟩)
      else ("Unknown", none, none) := by
  have h1s : toLocalMidnight "2025-08-06" = ⟨2025, 8, 6, 0, 0, 0⟩ := by decide
  have h1e : toLocalMidnight "2025-10-10" = ⟨2025, 10, 10, 0, 0, 0⟩ := by decide
  have h2s : toLocalMidnight "2025-10-13" = ⟨2025, 10, 13, 0, 0, 0⟩ := by decide
  have h2e : toLocalMidnight "2025-12-20" = ⟨2025, 12, 20, 0, 0, 0⟩ := by decide
  have h3s : toLocalMidnight "2026-01-06" = ⟨2026, 1, 6, 0, 0, 0⟩ := by decide
  have h3e : toLocalMidnight "2026-03-07" = ⟨2026, 3, 7, 0, 0, 0⟩ := by decide
  have h4s : toLocalMidnight "2026-03-09" = ⟨2026, 3, 9, 0, 0, 0⟩ := by decide
  have h4e : toLocalMidnight "2026-05-23" = ⟨2026, 5, 23, 0, 0, 0⟩ := by decide
  have e4e : (toLocalMidnight "2026-05-23").toSec = 63915091200 := by decide
  have e1s : (toLocalMidnight "2025-08-06").toSec = 63890035200 := by decide
  have hL : QUARTERS.getLast? = some ⟨"Q4", "2026-03-09", "2026-05-23"⟩ := by decide
  have hH : QUARTERS.head? = some ⟨"Q1", "2025-08-06", "2025-10-10"⟩ := by decide
  simp only [activeQuarterDt, findQ_QUARTERS, hL, hH]
  split_ifs with c1 c2 c3 c4 c5 c6 <;>
    simp_all [h1s, h1e, h2s, h2e, h3s, h3e, h4s, h4e, e4e, e1s]

/-- C9 counterexample: 2025-07-01 lies in none of the configured quarter
intervals (it precedes the first start date), yet `_active_quarter_dt`
returns `Q1`, not `Unknown`; likewise 2026-06-01 follows the last end date,
yet the function returns `Q4`. -/
theorem active_quarter_outside_intervals_counterexample :
    (activeQuarterDt ⟨2025, 7, 1, 0, 0, 0⟩).1 = "Q1"
    ∧ (activeQuarterDt ⟨2025, 7, 1, 0, 0, 0⟩).1 ≠ "Unknown"
    ∧ (∀ q ∈ QUARTERS,
        ¬ ((toLocalMidnight q.start).toSec ≤ (Dt.mk 2025 7 1 0 0 0).toSec ∧
           (Dt.mk 2025 7 1 0 0 0).toSec < (toLocalMidnight q.qend).toSec))
    ∧ (activeQuarterDt ⟨2026, 6, 1, 0, 0, 0⟩).1 = "Q4"
    ∧ (activeQuarterDt ⟨2026, 6, 1, 0, 0, 0⟩).1 ≠ "Unknown"
    ∧ (∀ q ∈ QUARTERS,
        ¬ ((toLocalMidnight q.start).toSec ≤ (Dt.mk 2026 6 1 0 0 0).toSec ∧
           (Dt.mk 2026 6 1 0 0 0).toSec < (toLocalMidnight q.qend).toSec)) := by
  decide

/-- C9 (amended): `_active_quarter_dt` returns `Unknown` exactly for
instants contained in no configured quarter interval that lie at or after
the first quarter's start and before the last quarter's end (the interior
gaps); an instant before the first start is clamped to the first quarter
and an instant at or after the last end is clamped to the (open-ended) last
quarter; and at most one quarter's `[start, end)` interval contains any
given instant. -/
theorem active_quarter_unknown_only_in_gaps (now : Dt) :
    ((activeQuarterDt now).1 = "Unknown" ↔
        (∀ q ∈ QUARTERS, ¬ ((toLocalMidnight q.start).toSec ≤ now.toSec ∧
            now.toSec < (toLocalMidnight q.qend).toSec)) ∧
          (toLocalMidnight "2025-08-06").toSec ≤ now.toSec ∧
          now.toSec < (toLocalMidnight "2026-05-23").toSec)
    ∧ (∀ q ∈ QUARTERS, ∀ q' ∈ QUARTERS,
        (toLocalMidnight q.start).toSec ≤ now.toSec →
        now.toSec < (toLocalMidnight q.qend).toSec →
        (toLocalMidnight q'.start).toSec ≤ now.toSec →
        now.toSec < (toLocalMidnight q'.qend).toSec → q = q')
    ∧ (now.toSec < (toLocalMidnight "2025-08-06").toSec →
        (activeQuarterDt now).1 = "Q1")
    ∧ ((toLocalMidnight "2026-05-23").toSec ≤ now.toSec →
        (activeQuarterDt now).1 = "Q4") := by
  have e1s : (toLocalMidnight "2025-08-06").toSec = 63890035200 := by decide
  have e1e : (toLocalMidnight "2025-10-10").toSec = 63895651200 := by decide
  have e2s : (toLocalMidnight "2025-10-13").toSec = 63895910400 := by decide
  have e2e : (toLocalMidnight "2025-12-20").toSec = 63901785600 := by decide
  have e3s : (toLocalMidnight "2026-01-06").toSec = 63903254400 := by decide
  have e3e : (toLocalMidnight "2026-03-07").toSec = 63908438400 := by decide
  have e4s : (toLocalMidnight "2026-03-09").toSec = 63908611200 := by decide
  have e4e : (toLocalMidnight "2026-05-23").toSec = 63915091200 := by decide
  refine ⟨?_, ?_, ?_, ?_⟩
  · rw [activeQuarterDt_eq, e1s, e4e]
    simp only [QUARTERS, List.forall_mem_cons, List.not_mem_nil, false_implies,
      and_true, e1s, e1e, e2s, e2e, e3s, e3e, e4s, e4e]
    split_ifs with c1 c2 c3 c4 c5 c6 <;> simp <;> omega
  · intro q hq q' hq'
    fin_cases hq <;> fin_cases hq' <;>
      (intro h1 h2 h3 h4
       simp only [e1s, e1e, e2s, e2e, e3s, e3e, e4s, e4e] at h1 h2 h3 h4
       first
       | rfl
       | (exfalso; omega))
  · intro hlt
    rw [e1s] at hlt
    rw [activeQuarterDt_eq]
    split_ifs <;> first | rfl | (exfalso; omega)
  · intro hge
    rw [e4e] at hge
    rw [activeQuarterDt_eq]
    split_ifs <;> first | rfl | (exfalso; omega)

/-- C9 witness: 2025-12-25, in the winter gap between Q2 and Q3, yields the
`Unknown` quarter state. -/
theorem active_quarter_unknown_only_in_gaps_witness :
    (activeQuarterDt ⟨2025, 12, 25, 12, 0, 0⟩).1 = "Unknown" :=
  ((active_quarter_unknown_only_in_gaps ⟨2025, 12, 25, 12, 0, 0⟩).1).mpr
    ⟨by decide, by decide, by decide⟩

/-- C10: the sign-in route counts a trimmed `Time In` of `""`, `"none"` or
`"nan"` (case-insensitively) as empty, while the capacity count and the
duplicate-open-pass check treat any record with a non-empty trimmed
`Time In` — including `"None"` — as closed: for `c10Row` (whose `Time In`
is the string `"None"`) the capacity filter is empty and even
`HALL_LIMIT = 1` raises no capacity issue, `student_has_open_pass` is
false, and yet `signin` closes exactly this record. -/
theorem signin_signout_openness_disagree :
    signin_time_in_empty "None" = true
    ∧ signin_time_in_empty "nan" = true
    ∧ safe_str c10Row.timeIn ≠ ""
    ∧ [c10Row].filter (fun p => safe_str p.timeIn == "") = []
    ∧ student_has_open_pass [c10Row] "Ann" "Lee" = false
    ∧ "capacity" ∉ (signout_checks [c10Row] nowQ2 1 18 "Bob" "Day").map Prod.fst
    ∧ signin [c10Row] "2025-10-14 10:30:00" "Ann" "Lee"
        = some (0, [{ c10Row with timeIn := "2025-10-14 10:30:00" }]) := by
  decide
